import Mathlib

/-!
Verification of the session-orchestrator server (`src/server/server-py/main.py`)
against its natural-language specification.

The development shallowly embeds the parts of `main.py` that the claims are
about:

* the token store (`valid_tokens`, `cleanup_tokens`, the `/api/auth` handler
  `authenticate`, and the token check at the top of `websocket_endpoint`);
* the input multiplexer (the body of `receive_from_client`, including the
  JSON classification of text frames and `base64.b64decode`);
* the timeout / teardown logic of `websocket_endpoint` (the
  `asyncio.wait_for` handlers and the `finally` block).

Python dicts are embedded as association lists with unique keys (insert
updates in place, as dict assignment does); `time.time()` values are passed
in explicitly as integers; a call of `json.loads` is embedded by its outcome,
an `Option JValue` (`none` models a raised `json.JSONDecodeError`); an
exception that the code does not catch is an `Except.error`.
-/

/-! ## JSON values

Embedding of the Python values that `json.loads` can return.  Numbers are
kept as their raw token (no claim depends on numeric values).  An object is
a field list with unique keys, in insertion order, exactly as a Python dict
from `json.loads` (for duplicate keys in the source text Python keeps the
last binding, so the resulting dict still has unique keys). -/

inductive JValue where
  | null : JValue
  | bool (b : Bool) : JValue
  | num (raw : String) : JValue
  | str (s : String) : JValue
  | arr (items : List JValue) : JValue
  | obj (fields : List (String × JValue)) : JValue

/-- Embedding of Python dict lookup (`payload.get(k)` / `payload[k]` /
`k in payload`) on the field list of a JSON object: the value at the first
(unique) binding of `k`, if any. -/
def dictGet (fields : List (String × JValue)) (k : String) : Option JValue :=
  match fields with
  | [] => none
  | p :: rest => if p.1 = k then some p.2 else dictGet rest k

/-! ## base64.b64decode

Model of CPython `base64.b64decode` on a `str` argument (default
`validate=False`): the string must be pure ASCII (it is encoded with
`s.encode("ascii")`, which raises otherwise), and the bytes are decoded by
`binascii.a2b_base64` in legacy (non-strict) mode.  That decoder is a state
machine over the characters: `quadPos` counts the position within the
current group of four data characters and `leftchar` carries the leftover
bits; a data character advances the state and, from positions 1-3, emits
one byte; a character outside the alphabet is skipped; a pad `=` is skipped
too unless it completes a quad that already holds two or three data
characters (`quadPos >= 2` and `quadPos` plus the run of pads reaches 4),
in which case decoding stops successfully and the rest of the input is
ignored.  Hence `base64.b64decode("==") = b""`,
`b64decode("AB=CD=") = b"\x00\x10\x83"`, `b64decode("=ABCD")` likewise
succeeds, and `b64decode("AB=C=") = b"\x00\x10"`.  If the input ends with a
partly filled quad (`quadPos` not 0), `binascii.Error` is raised (incorrect
padding, or a data-character count that is 1 more than a multiple of 4).
`none` models a raised exception. -/

/-- Value of a standard base64 alphabet character, `none` otherwise
(the `table_a2b_base64` lookup). -/
def b64CharVal (c : Char) : Option Nat :=
  if 'A' ≤ c ∧ c ≤ 'Z' then some (c.toNat - 65)
  else if 'a' ≤ c ∧ c ≤ 'z' then some (c.toNat - 97 + 26)
  else if '0' ≤ c ∧ c ≤ '9' then some (c.toNat - 48 + 52)
  else if c = '+' then some 62
  else if c = '/' then some 63
  else none

/-- The `binascii.a2b_base64` legacy loop: processes the characters with
the current quad position, the leftover bits of the previous data
character, the current run of pads, and the bytes emitted so far.  A pad at
`quadPos >= 2` whose run completes the quad ends decoding successfully
(the remaining characters are ignored); any other pad, and any character
outside the alphabet, is skipped; a data character resets the pad run,
advances `quadPos` and emits its byte.  Ending with `quadPos` not 0 raises
(`none`). -/
def a2b_base64_loop : List Char → Nat → Nat → Nat → List Nat →
    Option (List Nat)
  | [], quadPos, _, _, out =>
    if quadPos = 0 then some out else none
  | c :: rest, quadPos, leftchar, pads, out =>
    if c = '=' then
      if 2 ≤ quadPos then
        if 4 ≤ quadPos + (pads + 1) then some out
        else a2b_base64_loop rest quadPos leftchar (pads + 1) out
      else a2b_base64_loop rest quadPos leftchar pads out
    else
      match b64CharVal c with
      | none => a2b_base64_loop rest quadPos leftchar pads out
      | some v =>
        match quadPos with
        | 0 => a2b_base64_loop rest 1 v 0 out
        | 1 => a2b_base64_loop rest 2 (v % 16) 0
            (out ++ [leftchar * 4 + v / 16])
        | 2 => a2b_base64_loop rest 3 (v % 4) 0
            (out ++ [leftchar * 16 + v / 4])
        | _ => a2b_base64_loop rest 0 0 0 (out ++ [leftchar * 64 + v])

/-- Embedding of `base64.b64decode` on a `str`; `none` models a raised
exception (non-ASCII input, or a final partly filled quad). -/
def b64decode (s : String) : Option (List Nat) :=
  if s.toList.any (fun c => 128 ≤ c.toNat) then none
  else a2b_base64_loop s.toList 0 0 0 []

/-! ## The input multiplexer (`receive_from_client`, main.py lines 137-165)

One loop iteration reads a message dict and either enqueues at most one item
on one of the three queues, or raises (uncaught by the inner
`except json.JSONDecodeError` handler), which ends the loop via the outer
`except Exception` handler. -/

/-- An enqueue action on one of the three input queues. -/
inductive Put where
  | audio (b : List Nat) : Put
  | image (b : List Nat) : Put
  | text (s : String) : Put
deriving DecidableEq

/-- A message returned by `websocket.receive()`.  A binary frame carries its
bytes; a text frame carries the raw text `t` together with `p`, the outcome
of `json.loads t` (`none` models a raised `json.JSONDecodeError`); `other`
models a message carrying neither non-`None` field. -/
inductive RecvMsg where
  | bytes (b : List Nat) : RecvMsg
  | text (t : String) (p : Option JValue) : RecvMsg
  | other : RecvMsg

/-- Embedding of main.py lines 146-161: the `try`/`except
json.JSONDecodeError` classification of a non-empty text frame `t` whose
`json.loads` outcome is `p`.  The `"realtime_input"` branch of the source is
a bare `pass`: it does not `continue`, so control falls through to
`text_input_queue.put(text)` exactly as for every other non-image payload. -/
def handle_text (t : String) (p : Option JValue) : Except String (List Put) :=
  match p with
  | none => Except.ok [Put.text t]
  | some (JValue.obj fields) =>
    match dictGet fields "type" with
    | some (JValue.str ty) =>
      if ty = "image" then
        match dictGet fields "data" with
        | none => Except.error "KeyError: data"
        | some (JValue.str d) =>
          match b64decode d with
          | some bs => Except.ok [Put.image bs]
          | none => Except.error "binascii.Error: invalid base64"
        | some _ => Except.error "TypeError: b64decode argument"
      else Except.ok [Put.text t]
    | _ => Except.ok [Put.text t]
  | some _ => Except.ok [Put.text t]

/-- Embedding of main.py lines 140-161: one iteration of the receive loop.
`if "bytes" in message and message["bytes"]` skips empty binary frames;
`elif "text" in message and message["text"]` skips empty text frames. -/
def handle_message : RecvMsg → Except String (List Put)
  | RecvMsg.bytes b => if b = [] then Except.ok [] else Except.ok [Put.audio b]
  | RecvMsg.text t p => if t = "" then Except.ok [] else handle_text t p
  | RecvMsg.other => Except.ok []

deriving instance DecidableEq for Except

/-- The condition under which the classifier takes the image branch
(main.py line 148): the parsed payload is a dict whose `"type"` value is the
string `"image"`.  Whether the `"data"` field then decodes is a separate
question (see claim C10). -/
def is_image_directive : Option JValue → Bool
  | some (JValue.obj fields) =>
    match dictGet fields "type" with
    | some (JValue.str ty) => ty == "image"
    | _ => false
  | _ => false

/-- The three input queues of a session (FIFO: new items appended at the
end, the upstream consumer reads from the front). -/
structure Queues where
  audio : List (List Nat)
  video : List (List Nat)
  text : List String
deriving DecidableEq

/-- The empty queues a session starts with (main.py lines 119-121). -/
def init_queues : Queues := ⟨[], [], []⟩

/-- Perform one enqueue action. -/
def enqueue (q : Queues) : Put → Queues
  | Put.audio b => { q with audio := q.audio ++ [b] }
  | Put.image b => { q with video := q.video ++ [b] }
  | Put.text s => { q with text := q.text ++ [s] }

/-- Embedding of the `receive_from_client` loop over a finite message
sequence: each message is classified and its enqueues performed; an uncaught
exception ends the loop (it is absorbed by the outer `except Exception`
handler on lines 164-165, so nothing further is enqueued). -/
def receive_from_client (q : Queues) : List RecvMsg → Queues
  | [] => q
  | m :: rest =>
    match handle_message m with
    | Except.ok puts => receive_from_client (puts.foldl enqueue q) rest
    | Except.error _ => q

/-! ## The token store (main.py lines 51-103)

`valid_tokens : Dict[str, float]` is embedded as an association list with
unique keys, in insertion order; timestamps are integers. -/

/-- The token store: token string to issuance timestamp. -/
abbrev TokenStore := List (String × Int)

/-- main.py line 53. -/
def TOKEN_EXPIRY_SECONDS : Int := 30

/-- Embedding of `cleanup_tokens` (main.py lines 55-60): delete every entry
with `current_time - ts > TOKEN_EXPIRY_SECONDS`. -/
def cleanup_tokens (now : Int) (s : TokenStore) : TokenStore :=
  s.filter (fun p => ! decide (now - p.2 > TOKEN_EXPIRY_SECONDS))

/-- Python dict membership `t in valid_tokens`. -/
def hasToken (s : TokenStore) (t : String) : Bool :=
  s.any (fun p => p.1 == t)

/-- Python `del valid_tokens[t]`. -/
def delToken (s : TokenStore) (t : String) : TokenStore :=
  s.filter (fun p => p.1 != t)

/-- Python dict assignment `valid_tokens[k] = v`: update in place if the key
exists, append otherwise. -/
def dictInsert (k : String) (v : Int) : TokenStore → TokenStore
  | [] => [(k, v)]
  | p :: rest => if p.1 == k then (k, v) :: rest else p :: dictInsert k v rest

/-- Embedding of the `/api/auth` handler `authenticate` (main.py lines
72-82): generate a token (passed in as `session_token`), run the expiry
sweep, then record the token at the current time. -/
def authenticate (session_token : String) (now : Int) (s : TokenStore) :
    TokenStore :=
  dictInsert session_token now (cleanup_tokens now s)

/-- Outcome of the authentication step of `websocket_endpoint`: either the
socket is closed with a code and reason, or the session proceeds. -/
inductive WsAction where
  | close (code : Nat) (reason : String) : WsAction
  | proceed : WsAction
deriving DecidableEq

/-- Embedding of main.py lines 96-103: `if not token or token not in
valid_tokens`, close `4003 "Unauthorized"` and return (store untouched);
otherwise delete the token (one-time use) and proceed.  Python `not token`
is true for `None` and for the empty string.  Note the check reads no clock:
it tests membership only. -/
def websocket_auth (token : Option String) (s : TokenStore) :
    WsAction × TokenStore :=
  match token with
  | none => (WsAction.close 4003 "Unauthorized", s)
  | some t =>
    if t = "" then (WsAction.close 4003 "Unauthorized", s)
    else if hasToken s t then (WsAction.proceed, delToken s t)
    else (WsAction.close 4003 "Unauthorized", s)

/-- Python truthiness test `not token or token not in valid_tokens`: the
token query parameter is missing, empty, or not in the store. -/
def missing_or_invalid (token : Option String) (s : TokenStore) : Bool :=
  match token with
  | none => true
  | some t => t == "" || ! hasToken s t

/-! ## The session governor's exit path (main.py lines 182-201)

The `await asyncio.wait_for(run_session(), ...)` call exits in one of three
ways: normal completion, `asyncio.TimeoutError`, or any other exception.
The handlers and the `finally` block are embedded below.  The runtime
contracts used: `Task.cancel()` on a finished or already-cancelled task is a
no-op and never raises (asyncio contract); `websocket.close()` on an
already-closed socket raises, which the source swallows (`except: pass` in
the `finally` block, `except RuntimeError` / `except Exception` in the
timeout handler). -/

/-- State of the background `receive_task`. -/
inductive TaskState where
  | running : TaskState
  | finished : TaskState
  | cancelled : TaskState
deriving DecidableEq

/-- State of the client websocket. -/
inductive SockState where
  | opened : SockState
  | closed : SockState
deriving DecidableEq

/-- How the `await asyncio.wait_for(run_session(), ...)` call ended. -/
inductive ActiveExit where
  | completed : ActiveExit
  | timeout : ActiveExit
  | fault (msg : String) : ActiveExit

/-- Model of `receive_task.cancel()`: cancels a running task; a no-op on a
finished or cancelled task, and it never raises. -/
def cancel : TaskState → TaskState
  | TaskState.running => TaskState.cancelled
  | s => s

/-- Model of `await websocket.close(...)`: closes an open socket; raises if
the socket is already closed. -/
def close_socket : SockState → Except String SockState
  | SockState.opened => Except.ok SockState.closed
  | SockState.closed => Except.error "Cannot call close; socket is closed"

/-- Embedding of the `finally` block (main.py lines 195-201): cancel the
receive task, then attempt `websocket.close()` with every exception
swallowed by the bare `except: pass`. -/
def teardown (ts : TaskState) (ss : SockState) : TaskState × SockState :=
  (cancel ts,
   match close_socket ss with
   | Except.ok s2 => s2
   | Except.error _ => ss)

/-- Embedding of the timeout handler (main.py lines 184-192): attempt
`websocket.close(code=1000, reason="Session time limit reached")`,
swallowing `RuntimeError` and any other `Exception`. -/
def timeout_close (ss : SockState) : SockState :=
  match close_socket ss with
  | Except.ok s2 => s2
  | Except.error _ => ss

/-- Embedding of main.py lines 182-201: the handler for the given exit kind
runs first (timeout attempts the reasoned close; a fault is logged only),
then the `finally` block runs unconditionally.  An `Except.error` result
would model an exception escaping the governor. -/
def governor_exit (e : ActiveExit) (ts : TaskState) (ss : SockState) :
    Except String (TaskState × SockState) :=
  match e with
  | ActiveExit.timeout => Except.ok (teardown ts (timeout_close ss))
  | ActiveExit.completed => Except.ok (teardown ts ss)
  | ActiveExit.fault _ => Except.ok (teardown ts ss)

/-! ## Helper lemmas -/

/-- Membership after a dict insert: the inserted key, or a previously
present key. -/
theorem hasToken_dictInsert (k t : String) (v : Int) (s : TokenStore) :
    hasToken (dictInsert k v s) t = (k == t || hasToken s t) := by
  induction s with
  | nil => simp [hasToken, dictInsert]
  | cons p rest ih =>
    by_cases h : p.1 == k
    · have hk : p.1 = k := by simpa using h
      simp [hasToken, dictInsert, h, hk, List.any_cons] at ih ⊢
    · simp [hasToken, dictInsert, h, List.any_cons] at ih ⊢
      rw [ih]
      cases hkt : (k == t) <;> simp [Bool.or_left_comm]

/-- After the expiry sweep, a token all of whose entries are expired is
gone. -/
theorem hasToken_cleanup (now : Int) (tok : String) (s : TokenStore)
    (h : ∀ p ∈ s, p.1 = tok → now - p.2 > TOKEN_EXPIRY_SECONDS) :
    hasToken (cleanup_tokens now s) tok = false := by
  rw [hasToken, List.any_eq_false]
  intro p hp
  rw [cleanup_tokens, List.mem_filter] at hp
  intro hbeq
  have hpt : p.1 = tok := by simpa using hbeq
  have := h p hp.1 hpt
  simp [this] at hp

/-- Deleting a token removes it. -/
theorem hasToken_delToken_self (s : TokenStore) (t : String) :
    hasToken (delToken s t) t = false := by
  rw [hasToken, List.any_eq_false]
  intro p hp
  rw [delToken, List.mem_filter] at hp
  simpa using hp.2

/-- A payload that is not an image directive falls through to the text
enqueue (this includes the `realtime_input` branch, whose `pass` does not
skip the final `put`). -/
theorem handle_text_not_image (t : String) (p : Option JValue)
    (h : is_image_directive p = false) :
    handle_text t p = Except.ok [Put.text t] := by
  match p with
  | none => rfl
  | some JValue.null => rfl
  | some (JValue.bool b) => rfl
  | some (JValue.num r) => rfl
  | some (JValue.str s) => rfl
  | some (JValue.arr l) => rfl
  | some (JValue.obj fields) =>
    rw [handle_text]
    rw [is_image_directive] at h
    cases hdg : dictGet fields "type" with
    | none => simp [hdg]
    | some v =>
      cases v with
      | str ty =>
        rw [hdg] at h
        simp at h
        simp [hdg, h]
      | null => simp [hdg]
      | bool b => simp [hdg]
      | num r => simp [hdg]
      | arr l => simp [hdg]
      | obj f2 => simp [hdg]

/-- Nonempty binary frames all land on the audio queue, in order. -/
theorem receive_bytes_audio (bs : List (List Nat)) (q : Queues)
    (h : ∀ b ∈ bs, b ≠ []) :
    receive_from_client q (bs.map RecvMsg.bytes) =
      { q with audio := q.audio ++ bs } := by
  induction bs generalizing q with
  | nil => simp [receive_from_client]
  | cons b rest ih =>
    have hb : b ≠ [] := h b (by simp)
    have hrest : ∀ x ∈ rest, x ≠ [] := fun x hx => h x (by simp [hx])
    have hm : handle_message (RecvMsg.bytes b) = Except.ok [Put.audio b] := by
      simp [handle_message, hb]
    simp only [List.map_cons, receive_from_client, hm, List.foldl, enqueue]
    rw [ih _ hrest]
    simp [List.append_assoc]

/-! ## Claims -/

/-- Claim C1, counterexample: the token check of `websocket_endpoint`
(main.py lines 97-103) reads no clock — it tests membership in
`valid_tokens` only.  A token issued at time 0 and validated when 31 > 30 =
`TOKEN_EXPIRY_SECONDS` seconds have elapsed, with no intervening `issue()`
call to run the sweep, is accepted (`proceed`), not refused. -/
theorem c1_counterexample :
    ((31 : Int) - 0 > TOKEN_EXPIRY_SECONDS) ∧
    websocket_auth (some "tok") (authenticate "tok" 0 []) =
      (WsAction.proceed, ([] : TokenStore)) := by
  exact ⟨by decide, by decide⟩

/-- Claim C1, amended: validating an expired token fails only when an
expiry sweep has run after its expiry: if any later `authenticate` call
(which runs `cleanup_tokens`) happens at a time `now` past the token's
expiry, the token is gone from the store and validation refuses it. -/
theorem c1_expired_token_refused_after_sweep (s : TokenStore)
    (tok t2 : String) (now : Int)
    (hexp : ∀ p ∈ s, p.1 = tok → now - p.2 > TOKEN_EXPIRY_SECONDS)
    (hne : t2 ≠ tok) :
    websocket_auth (some tok) (authenticate t2 now s) =
      (WsAction.close 4003 "Unauthorized", authenticate t2 now s) := by
  have hmem : hasToken (authenticate t2 now s) tok = false := by
    rw [authenticate, hasToken_dictInsert,
      hasToken_cleanup now tok s hexp]
    simpa using hne
  rw [websocket_auth]
  by_cases htok : tok = ""
  · simp [htok]
  · simp [htok, hmem]

/-- Witness for the amended C1: a token issued at time 0 has expired by
time 31; an `authenticate` call for a fresh token at time 31 sweeps it out,
and its validation is then refused. -/
theorem c1_witness :
    websocket_auth (some "tok") (authenticate "u" 31 [("tok", 0)]) =
      (WsAction.close 4003 "Unauthorized", authenticate "u" 31 [("tok", 0)]) :=
  c1_expired_token_refused_after_sweep [("tok", 0)] "tok" "u" 31
    (by decide) (by decide)

/-- Claim C3: a token is usable at most once.  After `authenticate` issues
`tok`, validation proceeds and the resulting store is the store with `tok`
deleted; `tok` is then absent, and a further validation of `tok` is refused
and leaves the store unchanged (so every subsequent validation is refused
too). -/
theorem c3_token_single_use (s : TokenStore) (tok : String) (now : Int)
    (h : tok ≠ "") :
    (websocket_auth (some tok) (authenticate tok now s)).1 =
      WsAction.proceed ∧
    (websocket_auth (some tok) (authenticate tok now s)).2 =
      delToken (authenticate tok now s) tok ∧
    hasToken (delToken (authenticate tok now s) tok) tok = false ∧
    websocket_auth (some tok) (delToken (authenticate tok now s) tok) =
      (WsAction.close 4003 "Unauthorized",
        delToken (authenticate tok now s) tok) := by
  have hmem : hasToken (authenticate tok now s) tok = true := by
    rw [authenticate, hasToken_dictInsert]
    simp
  have hdel : hasToken (delToken (authenticate tok now s) tok) tok = false :=
    hasToken_delToken_self _ _
  refine ⟨?_, ?_, hdel, ?_⟩ <;> simp [websocket_auth, h, hmem, hdel]

/-- Witness for C3 at a concrete issued token. -/
theorem c3_witness :
    (websocket_auth (some "t") (authenticate "t" 0 [])).1 =
      WsAction.proceed ∧
    (websocket_auth (some "t") (authenticate "t" 0 [])).2 =
      delToken (authenticate "t" 0 []) "t" ∧
    hasToken (delToken (authenticate "t" 0 []) "t") "t" = false ∧
    websocket_auth (some "t") (delToken (authenticate "t" 0 []) "t") =
      (WsAction.close 4003 "Unauthorized",
        delToken (authenticate "t" 0 []) "t") :=
  c3_token_single_use [] "t" 0 (by decide)

/-- Claim C8: a missing, empty, or unknown token closes the socket with
code 4003 and reason "Unauthorized", no session starts (`close`, not
`proceed`), and the token store is returned unchanged. -/
theorem c8_unauthorized_reject (token : Option String) (s : TokenStore)
    (h : missing_or_invalid token s = true) :
    websocket_auth token s = (WsAction.close 4003 "Unauthorized", s) := by
  cases token with
  | none => rfl
  | some t =>
    rw [missing_or_invalid] at h
    by_cases ht : t = ""
    · simp [websocket_auth, ht]
    · have hmem : hasToken s t = false := by
        rcases Bool.or_eq_true_iff.mp h with h1 | h2
        · exact absurd (by simpa using h1) ht
        · simpa using h2
      simp [websocket_auth, ht, hmem]

/-- Witness for C8: a connection with no token query parameter is rejected
and a nonempty store is untouched. -/
theorem c8_witness :
    websocket_auth none [("a", 5)] =
      (WsAction.close 4003 "Unauthorized", [("a", 5)]) :=
  c8_unauthorized_reject none [("a", 5)] (by decide)

/-- Claim C2, counterexample: a text frame parsing to a JSON object with a
`realtime_input` key is NOT a no-op.  The source's `pass` (main.py line
157) does not `continue`, so control falls through to
`text_input_queue.put(text)`: the raw text is enqueued on the text channel. -/
theorem c2_counterexample :
    handle_message (RecvMsg.text "\x7b\"realtime_input\": 1\x7d"
        (some (JValue.obj [("realtime_input", JValue.num "1")]))) =
      Except.ok [Put.text "\x7b\"realtime_input\": 1\x7d"] ∧
    (Except.ok [Put.text "\x7b\"realtime_input\": 1\x7d"] :
        Except String (List Put)) ≠ Except.ok [] := by
  exact ⟨by decide, by decide⟩

/-- Claim C2, amended: a nonempty text frame parsing to a JSON object that
contains a `realtime_input` key and is not an image directive enqueues
nothing on the audio or image channels, but its raw text IS enqueued on the
text channel — the `pass` branch falls through to the text enqueue. -/
theorem c2_realtime_fallthrough (t : String)
    (fields : List (String × JValue)) (ht : t ≠ "")
    (_hrt : (dictGet fields "realtime_input").isSome = true)
    (him : is_image_directive (some (JValue.obj fields)) = false) :
    handle_message (RecvMsg.text t (some (JValue.obj fields))) =
      Except.ok [Put.text t] := by
  rw [handle_message]
  simp only [ht, if_neg ht]
  exact handle_text_not_image t _ him

/-- Witness for the amended C2 at a concrete realtime_input frame. -/
theorem c2_witness :
    handle_message (RecvMsg.text "\x7b\"realtime_input\": \x7b\x7d\x7d"
        (some (JValue.obj [("realtime_input", JValue.obj [])]))) =
      Except.ok [Put.text "\x7b\"realtime_input\": \x7b\x7d\x7d"] :=
  c2_realtime_fallthrough _ _ (by decide) (by decide) (by decide)

/-- Claim C4, counterexample: the empty text frame is non-JSON text
(`json.loads("")` raises), yet it is enqueued on no channel at all — the
`elif "text" in message and message["text"]` guard skips it — rather than
being enqueued on the text channel as the claim requires of every
non-image-directive text frame. -/
theorem c4_counterexample :
    handle_message (RecvMsg.text "" none) = Except.ok [] ∧
    (Except.ok [] : Except String (List Put)) ≠
      Except.ok [Put.text ""] := by
  exact ⟨by decide, by decide⟩

/-- Claim C4, amended (restricted to nonempty text frames): a nonempty text
frame parsing to a dict with `type == "image"` and a base64-decodable
`data` string puts exactly the decoded bytes on the image channel (and
nothing on the text channel); every other nonempty text frame — non-JSON
text or JSON that is not an image directive — puts exactly its raw text on
the text channel. -/
theorem c4_classification (t : String) (p : Option JValue) (ht : t ≠ "") :
    (∀ fields d bs, p = some (JValue.obj fields) →
      dictGet fields "type" = some (JValue.str "image") →
      dictGet fields "data" = some (JValue.str d) →
      b64decode d = some bs →
      handle_message (RecvMsg.text t p) = Except.ok [Put.image bs]) ∧
    (is_image_directive p = false →
      handle_message (RecvMsg.text t p) = Except.ok [Put.text t]) := by
  constructor
  · intro fields d bs hp hty hdata hdec
    subst hp
    rw [handle_message]
    simp only [ht, if_neg ht]
    rw [handle_text]
    simp [hty, hdata, hdec]
  · intro him
    rw [handle_message]
    simp only [ht, if_neg ht]
    exact handle_text_not_image t p him

/-- Witness for C4: the image frame from the spec's scenario puts the bytes
of "hello" on the image channel; a `data` of `"=="`, which the legacy
decoder accepts as the empty byte string, puts `b""` on the image channel;
and plain text goes to the text channel. -/
theorem c4_witness :
    handle_message (RecvMsg.text "\x7b\"type\":\"image\",\"data\":\"aGVsbG8=\"\x7d"
        (some (JValue.obj
          [("type", JValue.str "image"), ("data", JValue.str "aGVsbG8=")]))) =
      Except.ok [Put.image [104, 101, 108, 108, 111]] ∧
    handle_message (RecvMsg.text "\x7b\"type\":\"image\",\"data\":\"==\"\x7d"
        (some (JValue.obj
          [("type", JValue.str "image"), ("data", JValue.str "==")]))) =
      Except.ok [Put.image []] ∧
    handle_message (RecvMsg.text "not json" none) =
      Except.ok [Put.text "not json"] :=
  ⟨(c4_classification _ _ (by decide)).1
      [("type", JValue.str "image"), ("data", JValue.str "aGVsbG8=")]
      "aGVsbG8=" [104, 101, 108, 108, 111] rfl rfl rfl (by decide),
   (c4_classification _ _ (by decide)).1
      [("type", JValue.str "image"), ("data", JValue.str "==")]
      "==" [] rfl rfl rfl (by decide),
   (c4_classification "not json" none (by decide)).2 rfl⟩

/-- Claim C5, counterexample: a sequence consisting of one binary frame,
the empty byte string, enqueues nothing on the audio channel — the claim
would require the audio queue to end as `[[]]`. -/
theorem c5_counterexample :
    (receive_from_client init_queues [RecvMsg.bytes []]).audio = [] ∧
    ([] : List (List Nat)) ≠ [[]] := by
  exact ⟨by decide, by decide⟩

/-- Claim C5, amended (restricted to nonempty binary frames): a sequence of
N nonempty binary frames is enqueued on the audio channel exactly — all N
payloads, in the order sent, none dropped and none duplicated (the audio
queue is extended by precisely that list); empty binary frames are skipped. -/
theorem c5_audio_order (bs : List (List Nat)) (q : Queues)
    (h : ∀ b ∈ bs, b ≠ []) :
    receive_from_client q (bs.map RecvMsg.bytes) =
      { q with audio := q.audio ++ bs } :=
  receive_bytes_audio bs q h

/-- Witness for C5 on a concrete two-frame sequence. -/
theorem c5_witness :
    receive_from_client init_queues ([[1], [2, 3]].map RecvMsg.bytes) =
      { init_queues with audio := init_queues.audio ++ [[1], [2, 3]] } :=
  c5_audio_order [[1], [2, 3]] init_queues (by decide)

/-- Claim C6, counterexample: the empty string is not valid JSON
(`json.loads("")` raises `JSONDecodeError`), but an empty text frame is not
enqueued on the text channel — it is skipped before classification. -/
theorem c6_counterexample :
    ¬ (handle_message (RecvMsg.text "" none) =
        Except.ok [Put.text ""]) := by
  decide

/-- Claim C6, amended (restricted to nonempty text frames): a nonempty text
frame whose content is not valid JSON (`json.loads` raises
`JSONDecodeError`, embedded as parse outcome `none`) produces no error out
of the classification — the handler yields a normal enqueue action — and
the raw text is enqueued on the text channel; the receive loop then simply
continues with the rest of the stream. -/
theorem c6_malformed_json_as_text (t : String) (q : Queues)
    (rest : List RecvMsg) (ht : t ≠ "") :
    handle_message (RecvMsg.text t none) = Except.ok [Put.text t] ∧
    receive_from_client q (RecvMsg.text t none :: rest) =
      receive_from_client { q with text := q.text ++ [t] } rest := by
  have h1 : handle_message (RecvMsg.text t none) = Except.ok [Put.text t] := by
    rw [handle_message]
    simp only [ht, if_neg ht]
    rfl
  refine ⟨h1, ?_⟩
  simp only [receive_from_client, h1, List.foldl, enqueue]

/-- Witness for C6 at the spec's "not json" scenario frame. -/
theorem c6_witness :
    handle_message (RecvMsg.text "not valid json" none) =
      Except.ok [Put.text "not valid json"] ∧
    receive_from_client init_queues [RecvMsg.text "not valid json" none] =
      receive_from_client
        { init_queues with text := init_queues.text ++ ["not valid json"] }
        [] :=
  c6_malformed_json_as_text "not valid json" init_queues [] (by decide)

/-- Claim C9: an empty binary frame (empty byte string) or an empty text
frame (empty string, whatever its parse outcome) produces no enqueue action
and no error, and the receive loop continues with the rest of the stream
exactly as if the frame had not been sent. -/
theorem c9_empty_frames_skipped (q : Queues) (rest : List RecvMsg)
    (p : Option JValue) :
    handle_message (RecvMsg.bytes []) = Except.ok [] ∧
    handle_message (RecvMsg.text "" p) = Except.ok [] ∧
    receive_from_client q (RecvMsg.bytes [] :: rest) =
      receive_from_client q rest ∧
    receive_from_client q (RecvMsg.text "" p :: rest) =
      receive_from_client q rest := by
  have h1 : handle_message (RecvMsg.bytes []) = Except.ok [] := rfl
  have h2 : handle_message (RecvMsg.text "" p) = Except.ok [] := rfl
  refine ⟨h1, h2, ?_, ?_⟩ <;>
    simp only [receive_from_client, h1, h2, List.foldl]

/-- Claim C10: a nonempty text frame parsing to a dict with
`type == "image"` whose `data` field is missing or is a string that fails
base64 decoding raises an exception that the `except json.JSONDecodeError`
handler does not catch: the handler yields no enqueue action (`toOption`
is `none`, i.e. an `Except.error`), and the receive loop stops — the
queues are left exactly as they were and no later frame is processed. -/
theorem c10_image_error_terminates (t : String)
    (fields : List (String × JValue)) (q : Queues) (rest : List RecvMsg)
    (ht : t ≠ "")
    (hty : dictGet fields "type" = some (JValue.str "image"))
    (hdata : dictGet fields "data" = none ∨
      ∃ d, dictGet fields "data" = some (JValue.str d) ∧ b64decode d = none) :
    (handle_message (RecvMsg.text t (some (JValue.obj fields)))).toOption =
      none ∧
    receive_from_client q
      (RecvMsg.text t (some (JValue.obj fields)) :: rest) = q := by
  have herr : ∃ e, handle_text t (some (JValue.obj fields)) =
      Except.error e := by
    rcases hdata with hnone | ⟨d, hd, hdec⟩
    · exact ⟨"KeyError: data", by rw [handle_text]; simp [hty, hnone]⟩
    · exact ⟨"binascii.Error: invalid base64", by
        rw [handle_text]; simp [hty, hd, hdec]⟩
  obtain ⟨e, he⟩ := herr
  have hm : handle_message (RecvMsg.text t (some (JValue.obj fields))) =
      Except.error e := by
    rw [handle_message]
    simp only [ht, if_neg ht]
    exact he
  constructor
  · rw [hm]; rfl
  · simp only [receive_from_client, hm]

/-- Witness for C10: an image directive whose `data` is `"a"` (incorrect
base64 padding) kills the receive loop with nothing enqueued. -/
theorem c10_witness :
    (handle_message (RecvMsg.text "x" (some (JValue.obj
        [("type", JValue.str "image"),
         ("data", JValue.str "a")])))).toOption = none ∧
    receive_from_client init_queues
      [RecvMsg.text "x" (some (JValue.obj
        [("type", JValue.str "image"), ("data", JValue.str "a")]))] =
      init_queues :=
  c10_image_error_terminates "x"
    [("type", JValue.str "image"), ("data", JValue.str "a")]
    init_queues [] (by decide) rfl (Or.inr ⟨"a", rfl, by decide⟩)

/-- Claim C7: on every exit from the ACTIVE phase — normal completion,
timeout, or any fault — the governor's exit path returns normally (no
exception escapes), the receive task is no longer running (it was
cancelled, or had already finished), the socket ends closed, and running
the teardown a second time on the resulting state changes nothing:
teardown is idempotent, and is safe on an already-finished task and an
already-closed socket. -/
theorem c7_teardown_idempotent (e : ActiveExit) (ts : TaskState)
    (ss : SockState) :
    ∃ r : TaskState × SockState, governor_exit e ts ss = Except.ok r ∧
      r.1 ≠ TaskState.running ∧ r.2 = SockState.closed ∧
      teardown r.1 r.2 = r := by
  cases e <;> cases ts <;> cases ss <;>
    exact ⟨_, rfl, by decide, rfl, rfl⟩
